import Mathlib

/-!
Verification of the travelhook journey-segmentation and status-reconciliation
core against its natural-language specification.

The definitions below shallowly embed the relevant parts of
`src/travelhook/__main__.py` and `src/travelhook/helpers.py`:

* statuses, trains, stations mirror the JSON documents the webhook delivers;
* `is_new_journey` embeds the inner function of `handle_status_update`;
* `handler` embeds the dispatch logic of the webhook handler in `receive`;
* `fetch_headsign` embeds the headsign-resolution helper of `helpers.py`.

External collaborators (the haversine library, the HAFAS client) are passed in
as parameters/oracles, matching the spec's treatment of them as out of scope.
The persistence module (`database.py`) is not part of the sources; its narrow
contract is modelled from the spec where a claim depends on it, and each such
definition carries a doc comment saying so.
-/

namespace Travelhook

/-- A station record of a raw status document (`fromStation` / `toStation`):
name, coordinates, scheduled and real times (Unix seconds). -/
structure Station where
  uic : Int
  ds100 : Option String
  name : String
  latitude : Rat
  longitude : Rat
  scheduledTime : Int
  realTime : Int
deriving DecidableEq, Repr

/-- The train descriptor of a raw status document. -/
structure Train where
  fakeheadsign : Option String
  type : String
  line : Option String
  no : String
  id : String
  hafasId : Option String
deriving DecidableEq, Repr

/-- The visibility sub-document of a raw status. -/
structure Visibility where
  desc : String
  level : Int
deriving DecidableEq, Repr

/-- A raw status snapshot as delivered by the travelynx webhook. -/
structure Status where
  checkedIn : Bool
  comment : String
  actionTime : Int
  fromStation : Station
  toStation : Station
  intermediateStops : List Station
  train : Train
  visibility : Visibility
deriving DecidableEq, Repr

/-- `zugid` from `helpers.py`: departure time concatenated with the
upstream trip id, the primary key of a trip. -/
def zugid (data : Status) : String :=
  toString data.fromStation.scheduledTime ++ data.train.id

/-- Python's `a or b` for a nullable string `a`: falls back to `b` when `a`
is `None` or empty. -/
def orElseStr (a : Option String) (b : String) : String :=
  match a with
  | none => b
  | some s => if s = "" then b else s

/-- The tri-state break-mode override of `DB.BreakMode`. -/
inductive BreakMode where
  | NATURAL
  | FORCE_BREAK
  | FORCE_GLUE
deriving DecidableEq, Repr

/-- The marker prefix given to synthetic (manually entered) trips. -/
def travelhookfakedMarker : String := "travelhookfaked"

/-- Python's substring test `needle in haystack`. -/
def containsSubstr (needle haystack : String) : Bool :=
  decide (needle.data <:+: haystack.data)

/-- `is_new_journey` from `handle_status_update` in `__main__.py`.
The haversine function of the external library is a parameter; `reason` and
the ids of the user's current trips are the values the closure captures;
the break mode is threaded explicitly in place of `user.set_break_mode`,
so the result is the decision together with the break mode afterwards. -/
def is_new_journey (haversine : Rat × Rat → Rat × Rat → Rat) (reason : String)
    (currentTripIds : List String) (breakMode : BreakMode)
    (old new : Status) : Bool × BreakMode :=
  if reason = "checkout" ∧ new.train.id ∈ currentTripIds then
    (false, breakMode)
  else if old.train.id = new.train.id then
    (false, breakMode)
  else if breakMode = BreakMode.FORCE_BREAK then
    (true, BreakMode.NATURAL)
  else if breakMode = BreakMode.FORCE_GLUE then
    (false, BreakMode.NATURAL)
  else
    let change_from := old.toStation
    let change_to := new.fromStation
    let change_distance := haversine (change_from.latitude, change_from.longitude)
      (change_to.latitude, change_to.longitude)
    let change_duration := change_to.realTime - change_from.realTime
    ((decide (2 < change_distance) &&
        ! containsSubstr travelhookfakedMarker (new.train.id ++ old.train.id)) ||
      decide (7200 < change_duration),
     breakMode)

/-- A stored trip row: primary key `journey_id` (= `zugid` of the status),
the raw status, the sparse patch document, and the cached headsign column
(`none` = SQL NULL, never yet resolved). -/
structure Trip where
  journey_id : String
  status : Status
  status_patch : String
  headsign : Option String
deriving DecidableEq, Repr

/-- One user's slice of the persisted state: their trips in departure order,
the rendering messages as (journey_id, channel) pairs, the index where the
currently-open journey starts, and the break-mode override. -/
structure DBState where
  trips : List Trip
  currentStart : Nat
  messages : List (String × Nat)
  breakMode : BreakMode
deriving DecidableEq, Repr

/-- Modelled from the spec: the persistence module (`database.py`) is not
under src/. `DB.Trip.find` looks a trip up by its `journey_id` key. -/
def find_trip (trips : List Trip) (jid : String) : Option Trip :=
  trips.find? (fun t => t.journey_id = jid)

/-- Modelled from the spec: `DB.Trip.find_last_trip_for` returns the most
recent trip by departure time; trips are held in departure order here. -/
def find_last_trip_for (st : DBState) : Option Trip :=
  st.trips.getLast?

/-- Modelled from the spec: `DB.Trip.find_current_trips_for` returns the
trips of the currently-open journey, those after the last break point. -/
def find_current_trips_for (st : DBState) : List Trip :=
  st.trips.drop st.currentStart

/-- Modelled from the spec: `user.do_break_journey` seals the open journey,
so that the next inserted trip starts a fresh current journey. -/
def do_break_journey (st : DBState) : DBState :=
  { st with currentStart := st.trips.length }

/-- Modelled from the spec: `trip.delete()` hard-deletes the row with the
given key. -/
def trip_delete (st : DBState) (jid : String) : DBState :=
  { st with trips := st.trips.filter (fun t => ¬ t.journey_id = jid) }

/-- Modelled from the spec: `DB.Trip.upsert` inserts a new row keyed by the
status's `zugid`, or overwrites only the raw-status column of an existing
row with that key; it never touches `status_patch` or `headsign`. -/
def upsert (st : DBState) (status : Status) : DBState :=
  if (st.trips.any (fun t => t.journey_id = zugid status)) then
    { st with trips := st.trips.map (fun t =>
        if t.journey_id = zugid status then { t with status := status } else t) }
  else
    { st with trips := st.trips ++
        [{ journey_id := zugid status, status := status, status_patch := "",
           headsign := none }] }

/-- Modelled from the spec: `trip.maybe_fix_circle_line` auto-corrects a
known looping-line data artifact. No claim concerns this correction and the
statuses considered are unaffected, so it is the identity here. -/
def maybe_fix_circle_line (st : DBState) : DBState := st

/-- Modelled from the spec: `trip.maybe_fix_1970` auto-corrects pre-epoch
timestamp sentinels. No claim concerns this correction and the statuses
considered are unaffected, so it is the identity here. -/
def maybe_fix_1970 (st : DBState) : DBState := st

/-- `handle_status_update` from `__main__.py`: if a last trip exists and
`is_new_journey` says the new status starts another journey, break, then
upsert the raw status and run the write-time auto-corrections. The break
mode returned by `is_new_journey` is persisted in either case. -/
def handle_status_update (haversine : Rat × Rat → Rat × Rat → Rat)
    (reason : String) (status : Status) (st : DBState) : DBState :=
  match find_last_trip_for st with
  | none => maybe_fix_1970 (maybe_fix_circle_line (upsert st status))
  | some last_trip =>
    let r := is_new_journey haversine reason
      ((find_current_trips_for st).map (fun t => t.status.train.id))
      st.breakMode last_trip.status status
    let st1 : DBState := { st with breakMode := r.2 }
    let st2 := if r.1 then do_break_journey st1 else st1
    maybe_fix_1970 (maybe_fix_circle_line (upsert st2 status))

/-- The response of the webhook handler in `receive` of `__main__.py`.
`noContent` is the `HTTPNoContent` rejection; `undoDeleted` carries the
number of rendering messages removed and whether a remaining journey tail
was re-rendered; `crashed` marks the uncaught error Python would raise when
an undo arrives with no stored trip at all. -/
inductive Outcome where
  | pingOk
  | noContent
  | undoRejected
  | undoDeleted (deletedMessages : Nat) (tailRerendered : Bool)
  | privateScrubbed
  | published
  | crashed
deriving DecidableEq, Repr

/-- The reasons the webhook handler accepts. -/
def validReasons : List String := ["update", "checkin", "ping", "checkout", "undo"]

/-- The state after the undo branch deletes the last trip: its rendering
messages are removed and the trip row is hard-deleted. -/
def undo_delete_state (st : DBState) (last : Trip) : DBState :=
  trip_delete
    { st with messages := st.messages.filter (fun m => ¬ m.1 = last.journey_id) }
    last.journey_id

/-- The dispatch logic of `receive`'s `handler` in `__main__.py`, after the
user has been authenticated: the not-checked-in ping early return, the
reason/destination validation, the undo branch, the private-visibility
scrub, and otherwise the status update. The live-channel rendering of the
published branch is presentation-layer and appears only as the outcome tag;
the undo branch's message deletions and trip deletion are state changes and
are modelled. -/
def handler (haversine : Rat × Rat → Rat × Rat → Rat) (reason : String)
    (status : Status) (st : DBState) : Outcome × DBState :=
  if reason = "ping" ∧ status.checkedIn = false then
    (Outcome.pingOk, st)
  else if ¬ reason ∈ validReasons ∨ status.toStation.name = "" then
    (Outcome.noContent, st)
  else if reason = "undo" ∧ status.checkedIn = false then
    match find_last_trip_for st with
    | none => (Outcome.crashed, st)
    | some last_trip =>
      if last_trip.status.checkedIn = false then
        (Outcome.undoRejected, st)
      else
        let deleted := st.messages.filter (fun m => m.1 = last_trip.journey_id)
        let st2 := undo_delete_state st last_trip
        (Outcome.undoDeleted deleted.length
          (! (find_current_trips_for st2).isEmpty), st2)
  else if status.visibility.desc = "private" then
    (Outcome.privateScrubbed, trip_delete st (zugid status))
  else
    (Outcome.published, handle_status_update haversine reason status st)

/-- The first leg of a journey candidate returned by `hafas.journeys`
(departure and arrival as Unix seconds, line name, HAFAS journey id). -/
structure Leg where
  departure : Int
  arrival : Int
  name : String
  id : String
deriving DecidableEq, Repr

/-- Oracle for the external HAFAS client used by `fetch_headsign`:
`trip_dest jid` is `hafas.trip(jid).destination.name` (`none` when the call
raises), and `journeys` is the first leg of each candidate returned by
`hafas.journeys` for the queried relation (`none` when that call raises). -/
structure HafasEnv where
  trip_dest : String → Option String
  journeys : Option (List Leg)

/-- The `replace_headsign` table of `helpers.py`, keyed by
(train type + line/number, raw headsign). -/
def replace_headsign : List ((String × String) × String) := [
  (("U1", "Wien Alaudagasse (U1)"), "Alaudagasse"),
  (("U1", "Wien Leopoldau Bahnhst (U1)"), "Leopoldau"),
  (("U1", "Wien Oberlaa (U1)"), "Oberlaa"),
  (("U2", "Wien Schottentor (U2)"), "Schottentor"),
  (("U2", "Wien Seestadt (U2)"), "Seestadt"),
  (("U3", "Wien Ottakring Bahnhst (U3)"), "Ottakring"),
  (("U3", "Wien Simmering Bahnhof (U3)"), "Simmering"),
  (("U4", "Wien Heiligenstadt Bf (U4)"), "Heiligenstadt"),
  (("U4", "Wien Hütteldorf Bf (U4)"), "Hütteldorf"),
  (("U6", "Wien Floridsdorf Bf (U6)"), "Floridsdorf"),
  (("U6", "Wien Siebenhirten (U6)"), "Siebenhirten"),
  (("STR1", "Laatzen (GVH)"), "Laatzen"),
  (("STR1", "Langenhagen (Hannover) (GVH)"), "Langenhagen"),
  (("STR1", "Sarstedt (Endpunkt GVH)"), "Sarstedt"),
  (("STR2", "Rethen(Leine) Nord, Laatzen"), "Rethen/Nord"),
  (("STR3", "Altwarmbüchen, Isernhagen"), "Altwarmbüchen"),
  (("STR9", "Empelde (Bus/Tram), Ronnenberg"), "Empelde"),
  (("S2", "Blankenloch Nord, Stutensee"), "Blankenloch"),
  (("S2", "Daxlanden Dornröschenweg, Karlsruhe"), "Rheinstrandsiedlung"),
  (("S2", "Hagsfeld Reitschulschlag (Schleife), Karlsruhe"), "Reitschulschlag"),
  (("S2", "Mörsch Bach-West, Rheinstetten"), "Rheinstetten"),
  (("S2", "Spöck Richard-Hecht-Schule, Stutensee"), "Spöck")]

/-- Python's `dict.get(key, default)` on the `replace_headsign` table. -/
def replace_headsign_get (key : String × String) (dflt : String) : String :=
  match replace_headsign.find? (fun e => e.1 = key) with
  | some e => e.2
  | none => dflt

/-- `get_headsign_from_jid` inside `fetch_headsign`: look the trip up at
HAFAS and normalise the destination name through `replace_headsign`;
`none` propagates the exception of a failed HAFAS call. -/
def get_headsign_from_jid (env : HafasEnv) (status : Status) (jid : String) :
    Option String :=
  (env.trip_dest jid).map (fun headsign =>
    replace_headsign_get
      (status.train.type ++ orElseStr status.train.line status.train.no, headsign)
      headsign)

/-- The SQL `UPDATE trips SET headsign = ? WHERE journey_id = ?` of
`fetch_headsign`: a no-op when no row has the key. -/
def update_headsign (trips : List Trip) (jid : String) (headsign : String) :
    List Trip :=
  trips.map (fun t =>
    if t.journey_id = jid then { t with headsign := some headsign } else t)

/-- Python's removeprefix on strings. -/
def removePfx (s p : String) : String :=
  if p.isPrefixOf s then s.drop p.length else s

/-- The body of `fetch_headsign` past the cache check: try the HAFAS jid
directly when it looks like one (contains a bar), falling back on a guess
among the journey candidates between the two stops; every failure is
swallowed, leaving the sentinel. The headsign column is updated with the
result in all of these paths. -/
def fetch_headsign_uncached (env : HafasEnv) (trips : List Trip)
    (status : Status) : String × List Trip :=
  let jid := orElseStr status.train.hafasId status.train.id
  match if jid.data.contains '|' then get_headsign_from_jid env status jid else none with
  | some headsign => (headsign, update_headsign trips (zugid status) headsign)
  | none =>
    let headsign :=
      match env.journeys with
      | none => "?"
      | some legs =>
        let candidates := legs.filter (fun c =>
          c.departure = status.fromStation.scheduledTime ∧
            c.arrival = status.toStation.scheduledTime)
        match candidates with
        | [c] =>
          match get_headsign_from_jid env status c.id with
          | some h => h
          | none => "?"
        | cs =>
          let cands2 := cs.filter (fun c =>
            (removePfx c.name status.train.type).trim =
              orElseStr status.train.line status.train.no)
          match cands2 with
          | [c] =>
            match get_headsign_from_jid env status c.id with
            | some h => h
            | none => "?"
          | _ => "?"
    (headsign, update_headsign trips (zugid status) headsign)

/-- `fetch_headsign` from `helpers.py`: serve the cached headsign when the
trip row holds a non-empty one, otherwise resolve and store. Returns the
headsign together with the trips table afterwards. -/
def fetch_headsign (env : HafasEnv) (trips : List Trip) (status : Status) :
    String × List Trip :=
  match find_trip trips (zugid status) with
  | some t =>
    if (t.headsign.getD "") = "" then fetch_headsign_uncached env trips status
    else ((t.headsign.getD ""), trips)
  | none => fetch_headsign_uncached env trips status

/-- Modelled from the spec: `parse_manual_time` is imported by the
manual-trip command but its definition is not under src/. Per the command's
parameter documentation ("HH:MM departure according to the timetable") it
parses a wall-clock time of day on the current day; it is modelled as a
timestamp on one fixed DST-free reference day starting at `base`. -/
def parse_manual_time (base : Int) (hh mm : Nat) : Int :=
  base + 3600 * hh + 60 * mm

/-- The status document built by the `manualtrip` command in `__main__.py`,
including its overnight wrap: when the parsed arrival lies before the parsed
departure, one day is added to the arrival before the timestamps are taken.
`tok` is the random `secrets.token_urlsafe()` suffix of the synthetic id. -/
def manualtrip_status (now : Int) (from_station : String) (departure : Int)
    (to_station : String) (arrival : Int) (train : String) (headsign : String)
    (departure_delay arrival_delay : Int) (comment : String) (tok : String) :
    Status :=
  let arrival := if arrival < departure then arrival + 86400 else arrival
  { checkedIn := false
    comment := comment
    actionTime := now
    fromStation := {
      uic := 42, ds100 := none, name := from_station,
      latitude := 0, longitude := 0,
      scheduledTime := departure,
      realTime := departure + departure_delay * 60 }
    toStation := {
      uic := 69, ds100 := none, name := to_station,
      latitude := 0, longitude := 0,
      scheduledTime := arrival,
      realTime := arrival + arrival_delay * 60 }
    intermediateStops := []
    train := {
      fakeheadsign := some headsign,
      type := (train.splitOn " ").headD "",
      line := some (String.intercalate " " ((train.splitOn " ").drop 1)),
      no := "",
      id := "travelhookfaked" ++ tok,
      hafasId := none }
    visibility := { desc := "public", level := 100 } }

/-! ### Fixtures and helper lemmas -/

/-- A neutral raw status used as the base of the concrete examples. -/
def baseStatus : Status :=
  { checkedIn := false, comment := "", actionTime := 0,
    fromStation := {
      uic := 0, ds100 := none, name := "From",
      latitude := 0, longitude := 0, scheduledTime := 0, realTime := 0 },
    toStation := {
      uic := 1, ds100 := none, name := "To",
      latitude := 0, longitude := 0, scheduledTime := 0, realTime := 0 },
    intermediateStops := [],
    train := {
      fakeheadsign := none, type := "S", line := none, no := "1",
      id := "id0", hafasId := none },
    visibility := { desc := "public", level := 100 } }

/-- A haversine oracle reporting a constant 3 km between any two points. -/
def hav3 : Rat × Rat → Rat × Rat → Rat := fun _ _ => 3

/-- An infix of a list is an infix of any right-extension. -/
theorem isInfix_append_left {α : Type} (a l r : List α) (h : a <:+: l) :
    a <:+: l ++ r := by
  obtain ⟨s, t, rfl⟩ := h
  exact ⟨s, t ++ r, by simp⟩

/-- An infix of a list is an infix of any left-extension. -/
theorem isInfix_append_right {α : Type} (a l r : List α) (h : a <:+: r) :
    a <:+: l ++ r := by
  obtain ⟨s, t, rfl⟩ := h
  exact ⟨l ++ s, t, by simp⟩

/-! ### C3: checkout for a current trip id never breaks -/

/-- C3: an inbound checkout whose train id is already among the trips of
the currently-open journey never starts a new journey, whatever the break
mode and whatever newer check-in the previous trip records (out-of-order
race safety); the break mode is also left untouched. -/
theorem claim_C3_checkout_race (hav : Rat × Rat → Rat × Rat → Rat)
    (ids : List String) (mode : BreakMode) (old new : Status)
    (h : new.train.id ∈ ids) :
    is_new_journey hav "checkout" ids mode old new = (false, mode) := by
  unfold is_new_journey
  rw [if_pos ⟨rfl, h⟩]

/-- Witness for C3 at a concrete out-of-order delivery. -/
theorem claim_C3_checkout_race_witness :
    is_new_journey hav3 "checkout" ["idX", "idY"] BreakMode.NATURAL
      baseStatus { baseStatus with train := { baseStatus.train with id := "idX" } } =
      (false, BreakMode.NATURAL) :=
  claim_C3_checkout_race hav3 _ _ _ _ (by decide)

/-! ### C4: same train id never breaks, break mode untouched -/

/-- C4: when the new status carries the same train id as the previous trip,
segmentation never starts a new journey and the break-mode flag is left
untouched, even when it is set to force-new-journey. -/
theorem claim_C4_same_id (hav : Rat × Rat → Rat × Rat → Rat) (reason : String)
    (ids : List String) (mode : BreakMode) (old new : Status)
    (h : old.train.id = new.train.id) :
    is_new_journey hav reason ids mode old new = (false, mode) := by
  unfold is_new_journey
  by_cases h1 : reason = "checkout" ∧ new.train.id ∈ ids
  · rw [if_pos h1]
  · rw [if_neg h1, if_pos h]

/-- Witness for C4 with the break mode set to force-new-journey. -/
theorem claim_C4_same_id_witness :
    is_new_journey hav3 "checkin" [] BreakMode.FORCE_BREAK baseStatus baseStatus =
      (false, BreakMode.FORCE_BREAK) :=
  claim_C4_same_id hav3 "checkin" [] BreakMode.FORCE_BREAK baseStatus baseStatus rfl

/-! ### C5: force-continue-journey glues and resets -/

/-- C5: a check-in with a different train id made under the
force-continue-journey override continues the journey regardless of
distance and time gap, and the mode is reset to natural. -/
theorem claim_C5_force_glue (hav : Rat × Rat → Rat × Rat → Rat)
    (ids : List String) (old new : Status)
    (h : ¬ old.train.id = new.train.id) :
    is_new_journey hav "checkin" ids BreakMode.FORCE_GLUE old new =
      (false, BreakMode.NATURAL) := by
  unfold is_new_journey
  rw [if_neg (fun hc => absurd hc.1 (by decide)), if_neg h,
    if_neg (by decide : ¬ (BreakMode.FORCE_GLUE = BreakMode.FORCE_BREAK)),
    if_pos rfl]

/-- Witness for C5 across a huge distance and time gap. -/
theorem claim_C5_force_glue_witness :
    is_new_journey (fun _ _ => 1000) "checkin" [] BreakMode.FORCE_GLUE
      { baseStatus with toStation := { baseStatus.toStation with realTime := 0 } }
      { baseStatus with
        fromStation := { baseStatus.fromStation with realTime := 1000000 },
        train := { baseStatus.train with id := "other" } } =
      (false, BreakMode.NATURAL) :=
  claim_C5_force_glue (fun _ _ => 1000) [] _ _ (by decide)

/-! ### C2: the natural-mode break rule -/

/-- Previous trip of the C2 counterexample: its train id ends in a proper
prefix complement of the marker but is not itself a synthetic id. -/
def c2old : Status :=
  { baseStatus with
    toStation := { baseStatus.toStation with realTime := 1000 },
    train := { baseStatus.train with id := "fakedzz" } }

/-- New check-in of the C2 counterexample: its train id ends in a proper
prefix of the marker but is not itself a synthetic id. -/
def c2new : Status :=
  { baseStatus with
    fromStation := { baseStatus.fromStation with realTime := 1500 },
    train := { baseStatus.train with id := "zztravelhook" } }

/-- C2 (counterexample): a transition in which neither trip is synthetic
(the marker occurs in neither train id), the distance exceeds 2 km and the
gap is under 2 hours, yet no new journey is started, because the marker
straddles the boundary of the concatenation `new id ++ old id` that the
code actually tests. The claim's rule predicts a break here. -/
theorem claim_C2_counterexample :
    (¬ travelhookfakedMarker.data <:+: c2old.train.id.data) ∧
    (¬ travelhookfakedMarker.data <:+: c2new.train.id.data) ∧
    2 < hav3 (c2old.toStation.latitude, c2old.toStation.longitude)
      (c2new.fromStation.latitude, c2new.fromStation.longitude) ∧
    ¬ 7200 < c2new.fromStation.realTime - c2old.toStation.realTime ∧
    ¬ c2old.train.id = c2new.train.id ∧
    is_new_journey hav3 "checkin" [] BreakMode.NATURAL c2old c2new =
      (false, BreakMode.NATURAL) := by
  decide

/-- C2 (amended): in natural break mode (no checkout-race match, no same-id
match, mode natural), a new journey is started if and only if the distance
exceeds 2 km and the marker string does not occur in the concatenation of
the new trip's train id followed by the previous trip's train id, or the
gap between previous arrival and new departure exceeds 2 hours; the break
mode stays natural. -/
theorem claim_C2_amended (hav : Rat × Rat → Rat × Rat → Rat) (reason : String)
    (ids : List String) (old new : Status)
    (hrace : ¬ (reason = "checkout" ∧ new.train.id ∈ ids))
    (hid : ¬ old.train.id = new.train.id) :
    ((is_new_journey hav reason ids BreakMode.NATURAL old new).1 = true ↔
      (2 < hav (old.toStation.latitude, old.toStation.longitude)
          (new.fromStation.latitude, new.fromStation.longitude) ∧
        ¬ travelhookfakedMarker.data <:+: (new.train.id ++ old.train.id).data) ∨
      7200 < new.fromStation.realTime - old.toStation.realTime) ∧
    (is_new_journey hav reason ids BreakMode.NATURAL old new).2 =
      BreakMode.NATURAL := by
  unfold is_new_journey
  rw [if_neg hrace, if_neg hid,
    if_neg (by decide : ¬ (BreakMode.NATURAL = BreakMode.FORCE_BREAK)),
    if_neg (by decide : ¬ (BreakMode.NATURAL = BreakMode.FORCE_GLUE))]
  constructor
  · simp [containsSubstr]
  · rfl

/-- Witness for C2's amended rule at the spec's own example: same previous
arrival, departure 3 hours later from the same coordinates breaks. -/
theorem claim_C2_amended_witness :
    (is_new_journey (fun _ _ => 0) "checkin" [] BreakMode.NATURAL
      { baseStatus with toStation := { baseStatus.toStation with realTime := 36000 } }
      { baseStatus with
        fromStation := { baseStatus.fromStation with realTime := 46800 },
        train := { baseStatus.train with id := "id1" } }).1 = true := by
  rw [(claim_C2_amended (fun _ _ => 0) "checkin" [] _ _
    (by decide) (by decide)).1]
  right
  decide

/-! ### C9: synthetic trips disable the distance break -/

/-- C9: every trip built by the manual-trip command gets a train id of the
form marker-plus-token; and whenever either side of a natural-mode
transition has a train id starting with the marker, segmentation can break
only through the more-than-2-hours gap condition — the distance condition
never fires, whatever the distance. -/
theorem claim_C9_manual_trips_break_only_by_time :
    (∀ now fs dep ts arr train hs dd ad cm tok,
      (manualtrip_status now fs dep ts arr train hs dd ad cm tok).train.id =
        travelhookfakedMarker ++ tok) ∧
    (∀ (hav : Rat × Rat → Rat × Rat → Rat) (reason : String)
      (ids : List String) (old new : Status),
      ¬ (reason = "checkout" ∧ new.train.id ∈ ids) →
      ¬ old.train.id = new.train.id →
      (travelhookfakedMarker.data <+: old.train.id.data ∨
        travelhookfakedMarker.data <+: new.train.id.data) →
      is_new_journey hav reason ids BreakMode.NATURAL old new =
        (decide (7200 < new.fromStation.realTime - old.toStation.realTime),
         BreakMode.NATURAL)) := by
  constructor
  · intro now fs dep ts arr train hs dd ad cm tok
    rfl
  · intro hav reason ids old new hrace hid hpre
    have hinf : travelhookfakedMarker.data <:+: (new.train.id ++ old.train.id).data := by
      rw [String.data_append]
      rcases hpre with h | h
      · obtain ⟨t, ht⟩ := h
        exact isInfix_append_right _ _ _ ⟨[], t, by simpa using ht⟩
      · obtain ⟨t, ht⟩ := h
        exact isInfix_append_left _ _ _ ⟨[], t, by simpa using ht⟩
    have hcs : containsSubstr travelhookfakedMarker (new.train.id ++ old.train.id) = true := by
      simp only [containsSubstr, decide_eq_true_eq]
      exact hinf
    unfold is_new_journey
    rw [if_neg hrace, if_neg hid,
      if_neg (by decide : ¬ (BreakMode.NATURAL = BreakMode.FORCE_BREAK)),
      if_neg (by decide : ¬ (BreakMode.NATURAL = BreakMode.FORCE_GLUE))]
    simp [hcs]

/-- Witness for C9: a synthetic trip 3 km away, 500 s later, does not break. -/
theorem claim_C9_witness :
    is_new_journey hav3 "checkin" [] BreakMode.NATURAL
      { baseStatus with toStation := { baseStatus.toStation with realTime := 1000 } }
      { baseStatus with
        fromStation := { baseStatus.fromStation with realTime := 1500 },
        train := { baseStatus.train with id := "travelhookfakedtok1" } } =
      (false, BreakMode.NATURAL) := by
  rw [claim_C9_manual_trips_break_only_by_time.2 hav3 "checkin" [] _ _
    (by decide) (by decide) (Or.inr (by decide))]
  decide

/-! ### C10: overnight manual trips wrap forward -/

/-- C10: for a manual trip whose parsed HH:MM arrival lies before the
parsed departure, the arrival is shifted forward by exactly one day before
the status is built, and the resulting synthetic status always has a
destination scheduled time at or after the origin scheduled time. -/
theorem claim_C10_overnight_wrap (now base : Int)
    (fs ts train hs cm tok : String) (dd ad : Int) (h1 m1 h2 m2 : Nat)
    (hh1 : h1 < 24) (hm1 : m1 < 60) (hh2 : h2 < 24) (hm2 : m2 < 60) :
    ((parse_manual_time base h2 m2 < parse_manual_time base h1 m1 →
      (manualtrip_status now fs (parse_manual_time base h1 m1) ts
          (parse_manual_time base h2 m2) train hs dd ad cm tok).toStation.scheduledTime =
        parse_manual_time base h2 m2 + 86400)) ∧
    (manualtrip_status now fs (parse_manual_time base h1 m1) ts
        (parse_manual_time base h2 m2) train hs dd ad cm tok).fromStation.scheduledTime ≤
      (manualtrip_status now fs (parse_manual_time base h1 m1) ts
          (parse_manual_time base h2 m2) train hs dd ad cm tok).toStation.scheduledTime := by
  simp only [manualtrip_status, parse_manual_time]
  constructor
  · intro h
    rw [if_pos h]
  · by_cases h : base + 3600 * (h2 : Int) + 60 * (m2 : Int) <
      base + 3600 * (h1 : Int) + 60 * (m1 : Int)
    · rw [if_pos h]
      omega
    · rw [if_neg h]
      omega

/-- Witness for C10: departure 23:30, arrival 00:10 wraps to the next day. -/
theorem claim_C10_overnight_wrap_witness :
    (parse_manual_time 0 0 10 < parse_manual_time 0 23 30 →
      (manualtrip_status 5 "A" (parse_manual_time 0 23 30) "B"
          (parse_manual_time 0 0 10) "walk 1km" "B" 0 0 "" "tok").toStation.scheduledTime =
        parse_manual_time 0 0 10 + 86400) ∧
    (manualtrip_status 5 "A" (parse_manual_time 0 23 30) "B"
        (parse_manual_time 0 0 10) "walk 1km" "B" 0 0 "" "tok").fromStation.scheduledTime ≤
      (manualtrip_status 5 "A" (parse_manual_time 0 23 30) "B"
          (parse_manual_time 0 0 10) "walk 1km" "B" 0 0 "" "tok").toStation.scheduledTime :=
  claim_C10_overnight_wrap 5 0 "A" "B" "walk 1km" "B" "" "tok" 0 0 23 30 0 10
    (by decide) (by decide) (by decide) (by decide)

/-! ### C1: undo semantics of the webhook handler -/

/-- The last stored trip of the C1 counterexample: already checked out. -/
def c1last : Trip :=
  { journey_id := "j1", status := baseStatus, status_patch := "", headsign := none }

/-- The stored state of the C1 counterexample: one checked-out trip with
one rendering message. -/
def c1st : DBState :=
  { trips := [c1last], currentStart := 0, messages := [("j1", 5)],
    breakMode := BreakMode.NATURAL }

/-- C1 (counterexample): an undo event whose new status is not checked-in
arrives while the last stored trip is itself checked-out; the claim says
that trip and its renderings are then deleted, but the handler rejects the
undo and deletes nothing. -/
theorem claim_C1_counterexample :
    c1last.status.checkedIn = false ∧
    find_last_trip_for c1st = some c1last ∧
    handler hav3 "undo" baseStatus c1st = (Outcome.undoRejected, c1st) ∧
    (handler hav3 "undo" baseStatus c1st).2.trips = [c1last] := by
  decide

/-- C1 (amended): for an undo event whose new status is not checked-in,
when the last stored trip is still checked-in that trip and its rendering
messages are deleted and the remaining journey tail is re-rendered when one
remains; when the last stored trip is already checked-out the undo is
rejected — the caller is told to first undo the upstream checkout — and no
stored state changes. -/
theorem claim_C1_amended (hav : Rat × Rat → Rat × Rat → Rat) (status : Status)
    (st : DBState) (last : Trip)
    (hname : ¬ status.toStation.name = "") (hck : status.checkedIn = false)
    (hlast : find_last_trip_for st = some last) :
    (last.status.checkedIn = true →
      (handler hav "undo" status st).2.trips =
        st.trips.filter (fun t => ¬ t.journey_id = last.journey_id) ∧
      (handler hav "undo" status st).2.messages =
        st.messages.filter (fun m => ¬ m.1 = last.journey_id) ∧
      (handler hav "undo" status st).1 =
        Outcome.undoDeleted
          (st.messages.filter (fun m => m.1 = last.journey_id)).length
          (! (find_current_trips_for (undo_delete_state st last)).isEmpty)) ∧
    (last.status.checkedIn = false →
      handler hav "undo" status st = (Outcome.undoRejected, st)) := by
  unfold handler
  rw [if_neg (fun hc => absurd hc.1 (by decide)),
    if_neg (fun hc => hc.elim (fun hr => hr (by decide)) hname),
    if_pos ⟨rfl, hck⟩, hlast]
  dsimp only
  constructor
  · intro hin
    rw [if_neg (by simp [hin])]
    exact ⟨rfl, rfl, rfl⟩
  · intro hout
    rw [if_pos hout]

/-- The still-checked-in last trip of the C1 witness. -/
def c1wTrip : Trip :=
  { journey_id := "j2", status := { baseStatus with checkedIn := true },
    status_patch := "", headsign := none }

/-- The stored state of the C1 witness. -/
def c1wState : DBState :=
  { trips := [c1wTrip], currentStart := 0, messages := [("j2", 5)],
    breakMode := BreakMode.NATURAL }

/-- Witness for C1's amended rule: a still-checked-in last trip is deleted
together with its rendering message. -/
theorem claim_C1_amended_witness :
    (handler hav3 "undo" baseStatus c1wState).2.trips = [] ∧
    (handler hav3 "undo" baseStatus c1wState).2.messages = [] := by
  have h := (claim_C1_amended hav3 baseStatus c1wState c1wTrip
    (by decide) (by decide) (by decide)).1 (by decide)
  exact ⟨by rw [h.1]; decide, by rw [h.2.1]; decide⟩

/-! ### C7: private check-ins are scrubbed -/

/-- The private, not-checked-in status of the C7 counterexample. -/
def c7status : Status :=
  { baseStatus with visibility := { desc := "private", level := 0 } }

/-- A stored trip for the journey id of the C7 counterexample event. -/
def c7trip : Trip :=
  { journey_id := zugid c7status, status := c7status, status_patch := "",
    headsign := none }

/-- The stored state of the C7 counterexample. -/
def c7st : DBState :=
  { trips := [c7trip], currentStart := 0, messages := [],
    breakMode := BreakMode.NATURAL }

/-- C7 (counterexample): a not-checked-in ping is a non-undo inbound event;
even when its status is private and a trip for its journey id is stored,
the handler answers the connectivity check before the private branch, so
the stored trip is not deleted — the claim predicts an active scrub. -/
theorem claim_C7_counterexample :
    c7status.visibility.desc = "private" ∧
    find_trip c7st.trips (zugid c7status) = some c7trip ∧
    handler hav3 "ping" c7status c7st = (Outcome.pingOk, c7st) ∧
    (handler hav3 "ping" c7status c7st).2.trips = [c7trip] := by
  decide

/-- C7 (amended): for every non-undo inbound event that passes validation
(a known reason and a destination name) and is not a not-checked-in ping,
if its status is private then any stored trip for that journey id is
deleted, no new trip is written, and nothing is rendered or published: the
state afterwards is exactly the old one minus that trip row. -/
theorem claim_C7_amended (hav : Rat × Rat → Rat × Rat → Rat) (reason : String)
    (status : Status) (st : DBState)
    (hr : reason = "update" ∨ reason = "checkin" ∨ reason = "checkout" ∨
      (reason = "ping" ∧ status.checkedIn = true))
    (hname : ¬ status.toStation.name = "")
    (hpriv : status.visibility.desc = "private") :
    handler hav reason status st =
      (Outcome.privateScrubbed,
       { st with trips :=
          st.trips.filter (fun t => ¬ t.journey_id = zugid status) }) := by
  have hping : ¬ (reason = "ping" ∧ status.checkedIn = false) := by
    rcases hr with rfl | rfl | rfl | ⟨rfl, hck⟩
    · exact fun hc => absurd hc.1 (by decide)
    · exact fun hc => absurd hc.1 (by decide)
    · exact fun hc => absurd hc.1 (by decide)
    · exact fun hc => by rw [hck] at hc; exact absurd hc.2 (by decide)
  have hvalid : reason ∈ validReasons := by
    rcases hr with rfl | rfl | rfl | ⟨rfl, _⟩ <;> decide
  have hundo : ¬ (reason = "undo" ∧ status.checkedIn = false) := by
    rcases hr with rfl | rfl | rfl | ⟨rfl, _⟩ <;>
      exact fun hc => absurd hc.1 (by decide)
  unfold handler
  rw [if_neg hping,
    if_neg (fun hc => hc.elim (fun hg => hg hvalid) hname),
    if_neg hundo, if_pos hpriv]
  rfl

/-- Witness for C7's amended rule: a private checkout deletes the stored
trip for its id and nothing else. -/
theorem claim_C7_amended_witness :
    handler hav3 "checkout" c7status c7st =
      (Outcome.privateScrubbed, { c7st with trips := [] }) := by
  have h := claim_C7_amended hav3 "checkout" c7status c7st
    (Or.inr (Or.inr (Or.inl rfl))) (by decide) (by decide)
  rw [h]
  decide

/-! ### C8: malformed events are rejected without mutation -/

/-- The C8 counterexample status: not checked in, destination name empty. -/
def c8status : Status :=
  { baseStatus with toStation := { baseStatus.toStation with name := "" } }

/-- The stored state of the C8 counterexample. -/
def c8st : DBState :=
  { trips := [c1last], currentStart := 0, messages := [],
    breakMode := BreakMode.NATURAL }

/-- C8 (counterexample): a not-checked-in ping with an empty destination
name is answered as a connectivity check, not rejected — the claim predicts
a rejection for every event lacking a destination station name. State is
still unmutated. -/
theorem claim_C8_counterexample :
    c8status.toStation.name = "" ∧
    handler hav3 "ping" c8status c8st = (Outcome.pingOk, c8st) ∧
    ¬ (handler hav3 "ping" c8status c8st).1 = Outcome.noContent := by
  decide

/-- C8 (amended): every inbound event whose reason is unknown or whose
status lacks a destination station name leaves all stored state (trips,
patches, break mode, messages) unchanged; it is rejected with no content —
except a not-checked-in ping, which is answered as a connectivity check. -/
theorem claim_C8_amended (hav : Rat × Rat → Rat × Rat → Rat) (reason : String)
    (status : Status) (st : DBState)
    (h : ¬ reason ∈ validReasons ∨ status.toStation.name = "") :
    (handler hav reason status st).2 = st ∧
    (¬ (reason = "ping" ∧ status.checkedIn = false) →
      (handler hav reason status st).1 = Outcome.noContent) ∧
    ((reason = "ping" ∧ status.checkedIn = false) →
      (handler hav reason status st).1 = Outcome.pingOk) := by
  unfold handler
  by_cases hp : reason = "ping" ∧ status.checkedIn = false
  · rw [if_pos hp]
    exact ⟨rfl, fun hc => absurd hp hc, fun _ => rfl⟩
  · rw [if_neg hp, if_pos h]
    exact ⟨rfl, fun _ => rfl, fun hc => absurd hc hp⟩

/-- Witness for C8's amended rule: an unknown reason is rejected and the
stored state survives untouched. -/
theorem claim_C8_amended_witness :
    (handler hav3 "comment" baseStatus c8st).2 = c8st ∧
    (handler hav3 "comment" baseStatus c8st).1 = Outcome.noContent := by
  have h := claim_C8_amended hav3 "comment" baseStatus c8st (Or.inl (by decide))
  exact ⟨h.1, h.2.1 (fun hc => absurd hc.1 (by decide))⟩

/-! ### C6: headsign caching and (non-)retry -/

/-- Updating the headsign column of a keyed row is visible to a later
lookup of the same key. -/
theorem find_trip_update_headsign (trips : List Trip) (jid hs : String)
    (t : Trip) (h : find_trip trips jid = some t) :
    find_trip (update_headsign trips jid hs) jid =
      some { t with headsign := some hs } := by
  induction trips with
  | nil => simp [find_trip] at h
  | cons tr rest ih =>
    by_cases htr : tr.journey_id = jid
    · rw [find_trip, List.find?_cons_of_pos _ (by simpa using htr)] at h
      cases h
      rw [update_headsign, List.map_cons, if_pos htr, find_trip,
        List.find?_cons_of_pos _ (by simpa using htr)]
    · rw [find_trip, List.find?_cons_of_neg _ (by simpa using htr)] at h
      rw [update_headsign, List.map_cons, if_neg htr, find_trip,
        List.find?_cons_of_neg _ (by simpa using htr)]
      exact ih h

/-- When every HAFAS call of the environment fails, the uncached resolution
ends in the sentinel, which is stored. -/
theorem fetch_headsign_uncached_fail (env : HafasEnv) (trips : List Trip)
    (status : Status) (hjid : ∀ j, env.trip_dest j = none)
    (hj : env.journeys = none) :
    fetch_headsign_uncached env trips status =
      ("?", update_headsign trips (zugid status) "?") := by
  unfold fetch_headsign_uncached
  simp [get_headsign_from_jid, hjid, hj]

/-- C6 (amended): once a non-empty headsign is stored for a trip it is
served from the cache on every later call, with no external lookup and no
state change, whatever the environment; when resolution fails entirely the
failure is swallowed and the sentinel value is stored in the headsign
column; and because the sentinel is itself non-empty, a later call finds it
in the cache and returns it unchanged under any environment — failed
resolutions are not retried. -/
theorem claim_C6_headsign_memoization :
    (∀ (env : HafasEnv) (trips : List Trip) (status : Status) (t : Trip)
      (h : String), find_trip trips (zugid status) = some t →
      t.headsign = some h → ¬ h = "" →
      fetch_headsign env trips status = (h, trips)) ∧
    (∀ (env : HafasEnv) (trips : List Trip) (status : Status),
      (∀ t, find_trip trips (zugid status) = some t → t.headsign.getD "" = "") →
      (∀ j, env.trip_dest j = none) → env.journeys = none →
      fetch_headsign env trips status =
        ("?", update_headsign trips (zugid status) "?")) ∧
    (∀ (env env2 : HafasEnv) (trips : List Trip) (status : Status) (t : Trip),
      find_trip trips (zugid status) = some t → t.headsign.getD "" = "" →
      (∀ j, env.trip_dest j = none) → env.journeys = none →
      fetch_headsign env2 (fetch_headsign env trips status).2 status =
        ("?", (fetch_headsign env trips status).2)) := by
  have p1 : ∀ (env : HafasEnv) (trips : List Trip) (status : Status) (t : Trip)
      (h : String), find_trip trips (zugid status) = some t →
      t.headsign = some h → ¬ h = "" →
      fetch_headsign env trips status = (h, trips) := by
    intro env trips status t h hf hh hne
    unfold fetch_headsign
    rw [hf]
    dsimp only
    rw [hh]
    simp [hne]
  have p2 : ∀ (env : HafasEnv) (trips : List Trip) (status : Status),
      (∀ t, find_trip trips (zugid status) = some t → t.headsign.getD "" = "") →
      (∀ j, env.trip_dest j = none) → env.journeys = none →
      fetch_headsign env trips status =
        ("?", update_headsign trips (zugid status) "?") := by
    intro env trips status hmiss hjid hj
    unfold fetch_headsign
    cases hft : find_trip trips (zugid status) with
    | none => exact fetch_headsign_uncached_fail env trips status hjid hj
    | some t =>
      dsimp only
      rw [if_pos (hmiss t hft)]
      exact fetch_headsign_uncached_fail env trips status hjid hj
  refine ⟨p1, p2, ?_⟩
  intro env env2 trips status t hf hempty hjid hj
  rw [p2 env trips status (fun t' ht' => by
      have : t' = t := by
        have := hf.symm.trans ht'
        exact (Option.some.injEq _ _ ▸ this).symm
      rw [this]
      exact hempty)
    hjid hj]
  exact p1 env2 _ status _ "?" (find_trip_update_headsign trips _ "?" t hf)
    rfl (by decide)

/-- The status of the C6 counterexample: its train id looks like a HAFAS
journey id (contains a bar), so the direct lookup path is taken. -/
def c6status : Status :=
  { baseStatus with train := { baseStatus.train with id := "1|23" } }

/-- The stored, never-resolved trip row of the C6 counterexample. -/
def c6trip : Trip :=
  { journey_id := zugid c6status, status := c6status, status_patch := "",
    headsign := none }

/-- An environment in which every HAFAS call fails. -/
def envFail : HafasEnv :=
  { trip_dest := fun _ => none, journeys := none }

/-- An environment in which the direct HAFAS lookup succeeds. -/
def envOk : HafasEnv :=
  { trip_dest := fun _ => some "RealDest", journeys := none }

/-- C6 (counterexample): after a failed resolution the sentinel is written
to the headsign column; a later call under an environment in which the
lookup now succeeds still returns the sentinel from the cache — resolution
is not retried on next access, though the claim says it is. The third
conjunct shows the same environment resolves the headsign when the
sentinel is not yet cached. -/
theorem claim_C6_counterexample :
    fetch_headsign envFail [c6trip] c6status =
      ("?", [{ c6trip with headsign := some "?" }]) ∧
    fetch_headsign envOk [{ c6trip with headsign := some "?" }] c6status =
      ("?", [{ c6trip with headsign := some "?" }]) ∧
    fetch_headsign envOk [c6trip] c6status =
      ("RealDest", [{ c6trip with headsign := some "RealDest" }]) := by
  decide

/-- Witness for C6's amended rule: a cached headsign is returned unchanged
under an environment in which every external call fails. -/
theorem claim_C6_headsign_memoization_witness :
    fetch_headsign envFail [{ c6trip with headsign := some "Cached" }] c6status =
      ("Cached", [{ c6trip with headsign := some "Cached" }]) :=
  claim_C6_headsign_memoization.1 envFail _ c6status
    { c6trip with headsign := some "Cached" } "Cached" (by decide) rfl (by decide)

end Travelhook
